import Mathlib

/-!
Verification of the wallet signature authentication subsystem of AnonChat:
nonce registry (issue / consume-once / expiry), Ed25519 signature
verification wrapper, deterministic credential derivation, and the
`POST /api/auth/wallet-login` orchestrator.

The TypeScript source is embedded shallowly: the in-memory
`Map<string, {nonce, expiresAt}>` becomes a function store,
`Date.now()` becomes an explicit integer time parameter, external
cryptographic primitives (Stellar SDK key decoding, Ed25519 verify,
HMAC-SHA256) become function parameters, and thrown exceptions become
`Except` values folded exactly where the source catches them.
-/

namespace AnonChat

/-- One entry in the nonce store: `{ nonce, expiresAt }`. -/
structure NonceEntry where
  nonce : String
  expiresAt : Int
deriving DecidableEq, Repr

/-- The in-memory map `walletAddress → { nonce, expiresAt }`. -/
def NonceStore := String → Option NonceEntry

/-- `const NONCE_TTL_MS = 5 * 60 * 1000` (5 minutes). -/
def NONCE_TTL_MS : Int := 5 * 60 * 1000

/-- `generateNonce(walletAddress)`: builds the value
`anonchat:<Date.now()>:<uuid>`, stores `{nonce, expiresAt: Date.now() + NONCE_TTL_MS}`
under `walletAddress` (Map.set: overwrite), and returns it.
`now` stands for `Date.now()`, `uuid` for `crypto.randomUUID()`. -/
def generateNonce (store : NonceStore) (now : Int) (uuid : String)
    (walletAddress : String) : String × NonceStore :=
  let nonce := "anonchat:" ++ toString now ++ ":" ++ uuid
  (nonce,
   fun k => if k = walletAddress then
     some { nonce := nonce, expiresAt := now + NONCE_TTL_MS } else store k)

/-- `consumeNonce(walletAddress)`: looks the entry up; absent ⇒ `null`;
otherwise deletes it first (one-time use) and only then checks expiry:
`Date.now() > entry.expiresAt` ⇒ `null`, else the stored nonce. -/
def consumeNonce (store : NonceStore) (now : Int)
    (walletAddress : String) : Option String × NonceStore :=
  match store walletAddress with
  | none => (none, store)
  | some entry =>
    let store' := fun k => if k = walletAddress then none else store k
    if now > entry.expiresAt then (none, store')
    else (some entry.nonce, store')

-- ── JavaScript string primitives ──────────────────────────────────────────────

/-- `s.toLowerCase()` (character-wise, as it acts on ASCII addresses). -/
def jsToLower (s : String) : String :=
  ⟨s.data.map Char.toLower⟩

/-- `s.startsWith(p)` for a one-character prefix `p`. -/
def jsStartsWith (s : String) (p : Char) : Bool :=
  match s.data with
  | c :: _ => c = p
  | [] => false

/-- `s.trim()`: strips leading and trailing whitespace. -/
def jsTrim (s : String) : String :=
  ⟨((s.data.dropWhile Char.isWhitespace).reverse.dropWhile Char.isWhitespace).reverse⟩

-- ── Byte-level encodings ──────────────────────────────────────────────────────

/-- UTF-8 encoding of one character (code point → 1 to 4 bytes),
as performed by `TextEncoder` / `Buffer.from(s, "utf-8")`. -/
def utf8EncodeChar (c : Char) : List Nat :=
  let n := c.toNat
  if n < 0x80 then [n]
  else if n < 0x800 then [0xC0 + n / 64, 0x80 + n % 64]
  else if n < 0x10000 then
    [0xE0 + n / 4096, 0x80 + n / 64 % 64, 0x80 + n % 64]
  else
    [0xF0 + n / 262144, 0x80 + n / 4096 % 64, 0x80 + n / 64 % 64, 0x80 + n % 64]

/-- UTF-8 byte sequence of a string. -/
def utf8Bytes (s : String) : List Nat :=
  s.data.flatMap utf8EncodeChar

/-- Lowercase hex digit for a value `0..15`
(as produced by `Buffer.toString("hex")`). -/
def hexDigit (n : Nat) : Char :=
  if n < 10 then Char.ofNat (48 + n) else Char.ofNat (87 + n)

/-- Two lowercase hex digits of one byte. -/
def hexEncodeByte (b : Nat) : List Char :=
  [hexDigit (b / 16), hexDigit (b % 16)]

/-- `Buffer.toString("hex")`: lowercase hex encoding of a byte list. -/
def hexEncode (bs : List Nat) : String :=
  ⟨bs.flatMap hexEncodeByte⟩

/-- Numeric value of a hex digit character, case-tolerant;
`none` for a non-hex character. -/
def hexVal (c : Char) : Option Nat :=
  if 48 ≤ c.toNat ∧ c.toNat ≤ 57 then some (c.toNat - 48)
  else if 97 ≤ c.toNat ∧ c.toNat ≤ 102 then some (c.toNat - 87)
  else if 65 ≤ c.toNat ∧ c.toNat ≤ 70 then some (c.toNat - 55)
  else none

/-- `Buffer.from(s, "hex")`: decodes complete hex-digit pairs from the left,
stopping (without error) at the first incomplete or invalid pair. -/
def bufferFromHex : List Char → List Nat
  | c1 :: c2 :: rest =>
    match hexVal c1, hexVal c2 with
    | some h, some l => (h * 16 + l) :: bufferFromHex rest
    | _, _ => []
  | _ => []

-- ── Signature verification (stellar-verify.ts) ────────────────────────────────

/-- The external Stellar SDK surface used by `verifyWalletSignature`.
`fromPublicKey` decodes a strkey-encoded address into the raw Ed25519
public key and may throw (`Except.error`); `verify` runs the Ed25519
check on (public key, message bytes, signature bytes) and may throw
(e.g. tweetnacl rejects a signature that is not 64 bytes). -/
structure StellarSdkModel where
  fromPublicKey : String → Except String (List Nat)
  verify : List Nat → List Nat → List Nat → Except String Bool

/-- The body of the `try` block of `verifyWalletSignature`:
decode the key, UTF-8 encode the message, hex-decode the signature,
run Ed25519 verification; any step may raise. -/
def verifyWalletSignatureBody (sdk : StellarSdkModel)
    (walletAddress message signature : String) : Except String Bool := do
  let keypair ← sdk.fromPublicKey walletAddress
  let messageBytes := utf8Bytes message
  let signatureBytes := bufferFromHex signature.data
  sdk.verify keypair messageBytes signatureBytes

/-- `verifyWalletSignature(walletAddress, message, signature)`:
the body wrapped in `try … catch { return false }`. -/
def verifyWalletSignature (sdk : StellarSdkModel)
    (walletAddress message signature : String) : Bool :=
  match verifyWalletSignatureBody sdk walletAddress message signature with
  | .ok b => b
  | .error _ => false

-- ── Deterministic credential derivation (password.ts) ─────────────────────────

/-- HMAC-SHA256 as exposed by `crypto.subtle`: key bytes → message bytes →
32-byte digest. Kept abstract (a parameter) throughout. -/
def HmacFn := List Nat → List Nat → List Nat

/-- The pure core of `deterministicPassword`: hex encoding of
`HMAC-SHA256(secret, walletAddress)`, both arguments UTF-8 encoded.
The wallet address enters verbatim — no case normalization. -/
def deterministicPassword (hmacSha256 : HmacFn)
    (secret walletAddress : String) : String :=
  hexEncode (hmacSha256 (utf8Bytes secret) (utf8Bytes walletAddress))

/-- `deterministicPassword` with its guard: `process.env.WALLET_AUTH_SECRET`
is `envSecret` (`none` = unset); `!secret` (unset or empty) throws
`Error("WALLET_AUTH_SECRET environment variable is not set")`. -/
def deterministicPasswordRun (hmacSha256 : HmacFn)
    (envSecret : Option String) (walletAddress : String) : Except String String :=
  match envSecret with
  | none => .error "WALLET_AUTH_SECRET environment variable is not set"
  | some secret =>
    if secret = "" then
      .error "WALLET_AUTH_SECRET environment variable is not set"
    else
      .ok (deterministicPassword hmacSha256 secret walletAddress)

-- ── Input validation (validation.ts) ──────────────────────────────────────────

/-- A JSON body field as seen from JavaScript: absent/undefined,
present but not a string, or a string. -/
inductive JsField where
  | absent
  | nonString
  | str (s : String)
deriving DecidableEq, Repr

/-- `validateStellarAddress`: exactly 56 characters and starts with `G`. -/
def validateStellarAddress (address : String) : Bool :=
  address.length = 56 && jsStartsWith address 'G'

/-- `validateWalletAddressWithMessage`: `!walletAddress || typeof ≠ "string"`
⇒ "walletAddress is required"; then the format check; `none` = valid. -/
def validateWalletAddressWithMessage (walletAddress : JsField) : Option String :=
  match walletAddress with
  | .absent => some "walletAddress is required"
  | .nonString => some "walletAddress is required"
  | .str s =>
    if s = "" then some "walletAddress is required"
    else if !validateStellarAddress s then some "Invalid Stellar wallet address"
    else none

-- ── Authentication orchestrator (POST /api/auth/wallet-login) ────────────────

/-- The JSON responses the handler can produce, with their HTTP status. -/
inductive AuthResponse where
  | badRequest (error : String)                        -- 400
  | unauthorized (error : String)                      -- 401
  | okSignIn (walletAddress : String)                  -- 200, isNewUser: false
  | createdSignUp (walletAddress : String)             -- 201, isNewUser: true
  | internalError                                      -- 500, "Internal server error"
deriving DecidableEq, Repr

/-- HTTP status code of a response. -/
def AuthResponse.status : AuthResponse → Nat
  | .badRequest _ => 400
  | .unauthorized _ => 401
  | .okSignIn _ => 200
  | .createdSignUp _ => 201
  | .internalError => 500

/-- Result of `supabase.auth.signInWithPassword`: `signInError` and the
truthiness of `signInData.session`. -/
structure SignInOutcome where
  signInError : Option String
  hasSession : Bool

/-- Result of `supabase.auth.signUp`: `signUpError`. -/
structure SignUpOutcome where
  signUpError : Option String

/-- The identity provider (Supabase auth) as seen by the handler:
sign-in and sign-up outcomes as functions of (email, password). -/
structure IdentityProvider where
  signInWithPassword : String → String → SignInOutcome
  signUp : String → String → SignUpOutcome

/-- The email-like identity-provider key:
`${walletAddress.toLowerCase()}@wallet.anonchat.local`. -/
def emailForWallet (walletAddress : String) : String :=
  jsToLower walletAddress ++ "@wallet.anonchat.local"

/-- The signature presence check of the handler:
`!signature || typeof signature !== "string" || signature.trim() === ""`. -/
def signatureFieldMissing : JsField → Bool
  | .absent => true
  | .nonString => true
  | .str s => s = "" || jsTrim s = ""

/-- JavaScript truthiness test `!nonce` on the `string | null` returned by
`consumeNonce`: `null` and the empty string are falsy. -/
def nonceFalsy : Option String → Bool
  | none => true
  | some s => s = ""

/-- Steps 2–4 of the handler body (after input validation): consume the
nonce, verify the signature, derive the credential, resolve the identity.
A thrown error (`Except.error`) is caught by the handler's top-level
`catch`. Returns the response together with the nonce store after the
request.
The nonce store is global in the source, so a thrown error leaves the
consumed nonce consumed: the error value carries the store as mutated
up to the throw point. -/
def walletLoginBody (sdk : StellarSdkModel) (hmacSha256 : HmacFn)
    (envSecret : Option String) (provider : IdentityProvider)
    (store : NonceStore) (now : Int)
    (walletAddress signature : String) :
    Except (String × NonceStore) (AuthResponse × NonceStore) := do
  -- ── 2. Consume the nonce (one-time use, expires after 5 min) ──
  let (nonceOpt, store2) := consumeNonce store now walletAddress
  if nonceFalsy nonceOpt then
    return (.unauthorized "Nonce not found or expired. Request a new nonce.", store2)
  let nonce := nonceOpt.getD ""
  -- ── 3. Verify the signature ──
  let isValid := verifyWalletSignature sdk walletAddress nonce signature
  if !isValid then
    return (.unauthorized "Signature verification failed. Wallet ownership not proved.",
            store2)
  -- ── 4. Sign in / sign up via Supabase ──
  let email := emailForWallet walletAddress
  let password ← match deterministicPasswordRun hmacSha256 envSecret walletAddress with
    | .ok p => Except.ok p
    | .error e => Except.error (e, store2)
  let si := provider.signInWithPassword email password
  if si.signInError = none && si.hasSession then
    return (.okSignIn walletAddress, store2)
  -- First time — create the account
  let su := provider.signUp email password
  match su.signUpError with
  | some _ => return (.unauthorized "Authentication failed. Please try again.", store2)
  | none => return (.createdSignUp walletAddress, store2)

/-- `POST /api/auth/wallet-login`: input validation (step 1), then the body,
with the top-level `try … catch` folding any thrown error into the
500 "Internal server error" response. The nonce store after the request
is returned alongside the response. -/
def walletLoginPOST (sdk : StellarSdkModel) (hmacSha256 : HmacFn)
    (envSecret : Option String) (provider : IdentityProvider)
    (store : NonceStore) (now : Int)
    (walletAddress signature : JsField) : AuthResponse × NonceStore :=
  -- ── 1. Input validation ──
  match validateWalletAddressWithMessage walletAddress with
  | some err => (.badRequest err, store)
  | none =>
    if signatureFieldMissing signature then
      (.badRequest "signature is required", store)
    else
      -- validation passed, so both fields are strings
      let wa := match walletAddress with | .str s => s | _ => ""
      let sig := match signature with | .str s => s | _ => ""
      match walletLoginBody sdk hmacSha256 envSecret provider store now wa sig with
      | .ok result => result
      | .error (_, storeAtThrow) => (.internalError, storeAtThrow)

-- ── Concrete fixtures (used by witnesses and counterexamples) ─────────────────

/-- The empty nonce store. -/
def emptyStore : NonceStore := fun _ => none

/-- A well-formed Stellar address: 56 characters, starts with `G`. -/
def addrW : String := "GABCDEFGHIJKLMNOPQRSTUVWXYZABCDEFGHIJKLMNOPQRSTUVWXYZ234"

/-- Store holding one nonce for `addrW`, issued at time 1000. -/
def storeW : NonceStore := (generateNonce emptyStore 1000 "u1" addrW).2

/-- The nonce value issued into `storeW`. -/
def vW : String := "anonchat:1000:u1"

/-- `storeW` after consuming `addrW`'s nonce at time 2000. -/
def storeW2 : NonceStore := (consumeNonce storeW 2000 addrW).2

/-- An SDK model whose Ed25519 check always succeeds. -/
def sdkAccept : StellarSdkModel :=
  { fromPublicKey := fun _ => .ok [7], verify := fun _ _ _ => .ok true }

/-- An SDK model whose Ed25519 check always rejects (cleanly). -/
def sdkReject : StellarSdkModel :=
  { fromPublicKey := fun _ => .ok [7], verify := fun _ _ _ => .ok false }

/-- An HMAC model: echoes the message bytes (injective in the message). -/
def hmacEcho : HmacFn := fun _ m => m

/-- An HMAC model with a fixed 32-byte digest. -/
def hmacZero : HmacFn := fun _ _ => List.replicate 32 0

/-- A provider on which sign-in succeeds with a session. -/
def providerSignInOk : IdentityProvider :=
  { signInWithPassword := fun _ _ => { signInError := none, hasSession := true },
    signUp := fun _ _ => { signUpError := none } }

-- ── Nonce registry lemmas ─────────────────────────────────────────────────────

/-- Inversion of a successful consume: the returned store deletes the key,
and the store held a live entry whose nonce was returned. -/
theorem consumeNonce_some_inv (store : NonceStore) (now : Int) (k v : String)
    (store' : NonceStore) (h : consumeNonce store now k = (some v, store')) :
    store' = (fun x => if x = k then none else store x) ∧
    ∃ e, store k = some e ∧ e.nonce = v ∧ ¬ now > e.expiresAt := by
  unfold consumeNonce at h
  cases hk : store k with
  | none => rw [hk] at h; simp at h
  | some entry =>
    rw [hk] at h
    by_cases hexp : now > entry.expiresAt
    · simp [hexp] at h
    · simp [hexp] at h
      exact ⟨h.2.symm, entry, rfl, h.1, hexp⟩

/-- Consuming a key with no entry returns `null` and leaves the store as is. -/
theorem consumeNonce_absent (store : NonceStore) (k : String)
    (hnone : store k = none) (t : Int) :
    consumeNonce store t k = (none, store) := by
  unfold consumeNonce
  rw [hnone]

/-- The handler outcome on the signature-verification-failure path:
the 401 response, with the nonce already deleted. -/
theorem walletLoginPOST_sigfail (sdk : StellarSdkModel) (hmac : HmacFn)
    (envSecret : Option String) (provider : IdentityProvider)
    (store : NonceStore) (now : Int) (k sig v : String) (store' : NonceStore)
    (hval : validateWalletAddressWithMessage (.str k) = none)
    (hsig : signatureFieldMissing (.str sig) = false)
    (hcons : consumeNonce store now k = (some v, store'))
    (hv : v ≠ "")
    (hverify : verifyWalletSignature sdk k v sig = false) :
    walletLoginPOST sdk hmac envSecret provider store now (.str k) (.str sig)
      = (.unauthorized "Signature verification failed. Wallet ownership not proved.",
         store') := by
  unfold walletLoginPOST walletLoginBody
  rw [hval, hsig]
  simp [hcons, nonceFalsy, hv, hverify, pure, Except.pure, Bind.bind, Except.bind]

/-- C1: one-time use of nonces — once `consumeNonce(key)` has returned a
non-null value, every later `consumeNonce(key)` returns `null` (until a
new `generateNonce(key)`), and the entry is removed on that first
successful read even when the orchestrator's subsequent signature
verification fails: the handler then answers 401 with the store still
missing the consumed entry, never restoring it. -/
theorem nonce_one_time_use (sdk : StellarSdkModel) (hmac : HmacFn)
    (envSecret : Option String) (provider : IdentityProvider)
    (store : NonceStore) (now : Int) (k sig v : String) (store' : NonceStore)
    (hcons : consumeNonce store now k = (some v, store'))
    (hval : validateWalletAddressWithMessage (.str k) = none)
    (hsig : signatureFieldMissing (.str sig) = false)
    (hv : v ≠ "")
    (hverify : verifyWalletSignature sdk k v sig = false) :
    (∀ t, consumeNonce store' t k = (none, store')) ∧
    walletLoginPOST sdk hmac envSecret provider store now (.str k) (.str sig)
      = (.unauthorized "Signature verification failed. Wallet ownership not proved.",
         store') := by
  constructor
  · intro t
    obtain ⟨hst, -⟩ := consumeNonce_some_inv store now k v store' hcons
    apply consumeNonce_absent
    rw [hst]
    simp
  · exact walletLoginPOST_sigfail sdk hmac envSecret provider store now k sig v store'
      hval hsig hcons hv hverify

/-- C1 witness: the one-time-use theorem instantiated on a concrete store,
wallet, time and rejecting SDK. -/
theorem nonce_one_time_use_witness :
    consumeNonce storeW2 3000 addrW = (none, storeW2) ∧
    walletLoginPOST sdkReject hmacZero (some "sec") providerSignInOk storeW 2000
      (.str addrW) (.str "ab")
      = (.unauthorized "Signature verification failed. Wallet ownership not proved.",
         storeW2) := by
  have h := nonce_one_time_use sdkReject hmacZero (some "sec") providerSignInOk
    storeW 2000 addrW "ab" vW storeW2 (by rfl) (by decide) (by decide) (by decide)
    (by decide)
  exact ⟨h.1 3000, h.2⟩

/-- C2: the signature verifier is total and never raises — for every SDK
behavior (including one that throws at key decoding or at verification)
and every input triple, `verifyWalletSignature` returns the boolean the
underlying check produced when no step raised, and `false` whenever any
step raised; no error escapes. -/
theorem verifyWalletSignature_total (sdk : StellarSdkModel)
    (walletAddress message signature : String) :
    (∃ b, verifyWalletSignatureBody sdk walletAddress message signature = .ok b ∧
      verifyWalletSignature sdk walletAddress message signature = b) ∨
    (∃ e, verifyWalletSignatureBody sdk walletAddress message signature = .error e ∧
      verifyWalletSignature sdk walletAddress message signature = false) := by
  unfold verifyWalletSignature
  cases h : verifyWalletSignatureBody sdk walletAddress message signature with
  | ok b => exact Or.inl ⟨b, rfl, rfl⟩
  | error e => exact Or.inr ⟨e, rfl, rfl⟩

/-- C3: fixed TTL and lazy expiry — every entry `generateNonce` stores
expires exactly at issuance time plus `NONCE_TTL_MS`, which is exactly
five minutes; and consuming any key holding an entry whose `expiresAt`
lies strictly in the past returns `null`, exactly like a key that was
never issued. -/
theorem nonce_fixed_ttl_lazy_expiry (store : NonceStore) (now t : Int)
    (uuid k : String) (entry : NonceEntry)
    (hpast : store k = some entry) (hexp : t > entry.expiresAt) :
    (generateNonce store now uuid k).2 k
      = some { nonce := (generateNonce store now uuid k).1,
               expiresAt := now + NONCE_TTL_MS } ∧
    NONCE_TTL_MS = 5 * 60 * 1000 ∧
    (consumeNonce store t k).1 = none ∧
    (consumeNonce store t k).1 = (consumeNonce emptyStore t k).1 ∧
    (∀ key, (consumeNonce store t k).2 key = store key
      ∨ (consumeNonce store t k).2 key = none) := by
  refine ⟨?_, rfl, ?_, ?_, ?_⟩
  · simp [generateNonce]
  · unfold consumeNonce
    rw [hpast]
    simp [hexp]
  · unfold consumeNonce
    rw [hpast]
    simp [hexp, emptyStore]
  · intro key
    unfold consumeNonce
    rw [hpast]
    simp only [hexp, if_true]
    by_cases hk : key = k
    · right
      simp [hk]
    · left
      simp [hk]

/-- C3 witness: a nonce issued at time 1000 carries `expiresAt = 301000`
and is reported gone when consumed at time 301001. -/
theorem nonce_fixed_ttl_lazy_expiry_witness :
    storeW addrW = some { nonce := vW, expiresAt := 301000 } ∧
    ((generateNonce storeW 1000 "u1" addrW).2 addrW
      = some { nonce := (generateNonce storeW 1000 "u1" addrW).1,
               expiresAt := 1000 + NONCE_TTL_MS } ∧
     NONCE_TTL_MS = 5 * 60 * 1000 ∧
     (consumeNonce storeW 301001 addrW).1 = none ∧
     (consumeNonce storeW 301001 addrW).1 = (consumeNonce emptyStore 301001 addrW).1 ∧
     ((consumeNonce storeW 301001 addrW).2 addrW = storeW addrW
       ∨ (consumeNonce storeW 301001 addrW).2 addrW = none)) := by
  refine ⟨by decide, ?_⟩
  have h := nonce_fixed_ttl_lazy_expiry storeW 1000 301001 "u1" addrW
    { nonce := vW, expiresAt := 301000 } (by decide) (by decide)
  exact ⟨h.1, h.2.1, h.2.2.1, h.2.2.2.1, h.2.2.2.2 addrW⟩

/-- C4: replacement semantics — after two successive `generateNonce(key)`
calls producing distinct values, any `consumeNonce(key)` returns either
`null` or the second value, never the first; and after any such consume,
every further `consumeNonce(key)` returns `null`, so the first value can
never again be returned. -/
theorem generateNonce_replacement (store : NonceStore) (n1 n2 : Int)
    (u1 u2 k : String) (v1 v2 : String) (s1 s2 : NonceStore)
    (h1 : generateNonce store n1 u1 k = (v1, s1))
    (h2 : generateNonce s1 n2 u2 k = (v2, s2))
    (hne : v1 ≠ v2) :
    (∀ t, (consumeNonce s2 t k).1 = none ∨ (consumeNonce s2 t k).1 = some v2) ∧
    (∀ t, (consumeNonce s2 t k).1 ≠ some v1) ∧
    (∀ t u, (consumeNonce (consumeNonce s2 t k).2 u k).1 ≠ some v1) := by
  have hs2 : s2 k = some { nonce := v2, expiresAt := n2 + NONCE_TTL_MS } := by
    have := congrArg Prod.snd h2
    have hv2 := congrArg Prod.fst h2
    simp [generateNonce] at this hv2
    rw [← this, ← hv2]
    simp
  have hcons : ∀ t, (consumeNonce s2 t k).1 = none ∨ (consumeNonce s2 t k).1 = some v2 := by
    intro t
    unfold consumeNonce
    rw [hs2]
    by_cases hexp : t > n2 + NONCE_TTL_MS
    · simp [hexp]
    · simp [hexp]
  refine ⟨hcons, ?_, ?_⟩
  · intro t hcontra
    rcases hcons t with h | h
    · rw [hcontra] at h; exact Option.noConfusion h
    · rw [hcontra] at h
      exact hne (Option.some.inj h)
  · intro t u hcontra
    have hdel : (consumeNonce s2 t k).2 k = none := by
      unfold consumeNonce
      rw [hs2]
      by_cases hexp : t > n2 + NONCE_TTL_MS <;> simp [hexp]
    rw [consumeNonce_absent (consumeNonce s2 t k).2 k hdel u] at hcontra
    exact Option.noConfusion hcontra

/-- C4 witness: two issues for the same wallet; the consume returns the
second value, not the first, and a further consume returns nothing. -/
theorem generateNonce_replacement_witness :
    ((consumeNonce (generateNonce storeW 1500 "u2" addrW).2 2000 addrW).1 = none ∨
     (consumeNonce (generateNonce storeW 1500 "u2" addrW).2 2000 addrW).1
       = some "anonchat:1500:u2") ∧
    (consumeNonce (generateNonce storeW 1500 "u2" addrW).2 2000 addrW).1 ≠ some vW ∧
    (consumeNonce
      (consumeNonce (generateNonce storeW 1500 "u2" addrW).2 2000 addrW).2
      2500 addrW).1 ≠ some vW := by
  have h := generateNonce_replacement emptyStore 1000 1500 "u1" "u2" addrW
    vW "anonchat:1500:u2" storeW (generateNonce storeW 1500 "u2" addrW).2
    (by rfl) (by rfl) (by decide)
  exact ⟨h.1 2000, h.2.1 2000, h.2.2 2000 2500⟩

/-- C5: missing-secret classification — with `WALLET_AUTH_SECRET` unset or
empty, an otherwise fully valid authentication request (well-formed
address, signature present, live non-empty nonce, passing signature
check) is answered with the 500 Internal-server-error response, never a
400 or 401 classification. -/
theorem missing_secret_internal_error (sdk : StellarSdkModel) (hmac : HmacFn)
    (envSecret : Option String) (provider : IdentityProvider)
    (store : NonceStore) (now : Int) (k sig : String) (entry : NonceEntry)
    (hval : validateWalletAddressWithMessage (.str k) = none)
    (hsig : signatureFieldMissing (.str sig) = false)
    (hstore : store k = some entry)
    (hlive : ¬ now > entry.expiresAt)
    (hnonempty : entry.nonce ≠ "")
    (hverify : verifyWalletSignature sdk k entry.nonce sig = true)
    (hsecret : envSecret = none ∨ envSecret = some "") :
    walletLoginPOST sdk hmac envSecret provider store now (.str k) (.str sig)
      = (.internalError, fun x => if x = k then none else store x) ∧
    (walletLoginPOST sdk hmac envSecret provider store now (.str k) (.str sig)).1.status
      = 500 := by
  have hcons : consumeNonce store now k
      = (some entry.nonce, fun x => if x = k then none else store x) := by
    unfold consumeNonce
    rw [hstore]
    simp [hlive]
  have hmain : walletLoginPOST sdk hmac envSecret provider store now (.str k) (.str sig)
      = (.internalError, fun x => if x = k then none else store x) := by
    unfold walletLoginPOST walletLoginBody
    rw [hval, hsig]
    rcases hsecret with h | h <;>
      simp [hcons, nonceFalsy, hnonempty, hverify, deterministicPasswordRun, h,
        pure, Except.pure, Bind.bind, Except.bind]
  exact ⟨hmain, by rw [hmain]; rfl⟩

/-- C5 witness: unset secret, valid address, live nonce, accepting SDK —
the handler answers 500. -/
theorem missing_secret_internal_error_witness :
    walletLoginPOST sdkAccept hmacZero none providerSignInOk storeW 2000
      (.str addrW) (.str "ab")
      = (.internalError, fun x => if x = addrW then none else storeW x) ∧
    (walletLoginPOST sdkAccept hmacZero none providerSignInOk storeW 2000
      (.str addrW) (.str "ab")).1.status = 500 :=
  missing_secret_internal_error sdkAccept hmacZero none providerSignInOk storeW 2000
    addrW "ab" { nonce := vW, expiresAt := 301000 } (by decide) (by decide)
    (by decide) (by decide) (by decide) (by decide) (Or.inl rfl)

/-- C6: validation-failure frame — whenever the wallet-address validation
fails or the signature field is missing/empty, the handler answers 400
and returns the nonce store exactly as it received it: no key is
consumed or otherwise touched. -/
theorem validation_failure_frame (sdk : StellarSdkModel) (hmac : HmacFn)
    (envSecret : Option String) (provider : IdentityProvider)
    (store : NonceStore) (now : Int) (w s : JsField)
    (hfail : validateWalletAddressWithMessage w ≠ none ∨ signatureFieldMissing s = true) :
    ∃ err, walletLoginPOST sdk hmac envSecret provider store now w s
      = (.badRequest err, store) := by
  unfold walletLoginPOST
  cases hv : validateWalletAddressWithMessage w with
  | some err => exact ⟨err, rfl⟩
  | none =>
    rcases hfail with h | h
    · exact absurd hv h
    · rw [h]
      exact ⟨"signature is required", rfl⟩

/-- C6 witness: a malformed address is rejected with 400 and the store is
returned untouched. -/
theorem validation_failure_frame_witness :
    ∃ err, walletLoginPOST sdkAccept hmacZero (some "sec") providerSignInOk storeW 2000
      (.str "bad") (.str "x") = (.badRequest err, storeW) :=
  validation_failure_frame sdkAccept hmacZero (some "sec") providerSignInOk storeW 2000
    (.str "bad") (.str "x") (Or.inl (by decide))

-- ── Hex encoding lemmas ───────────────────────────────────────────────────────

/-- `hexVal` decodes what `hexDigit` encodes. -/
theorem hexVal_hexDigit (n : Nat) (h : n < 16) : hexVal (hexDigit n) = some n := by
  interval_cases n <;> decide

/-- A hex digit of a value below 16 is a lowercase hex character. -/
theorem hexDigit_range (n : Nat) (h : n < 16) :
    (48 ≤ (hexDigit n).toNat ∧ (hexDigit n).toNat ≤ 57) ∨
    (97 ≤ (hexDigit n).toNat ∧ (hexDigit n).toNat ≤ 102) := by
  interval_cases n <;> decide

/-- Hex decoding is a left inverse of hex encoding on byte lists. -/
theorem bufferFromHex_hexEncode (bs : List Nat) (hb : ∀ b ∈ bs, b < 256) :
    bufferFromHex (hexEncode bs).data = bs := by
  induction bs with
  | nil => rfl
  | cons b tl ih =>
    have hblt : b < 256 := hb b (List.mem_cons_self b tl)
    have hhi : b / 16 < 16 := Nat.div_lt_of_lt_mul (by omega)
    have hlo : b % 16 < 16 := Nat.mod_lt _ (by omega)
    have htl := ih (fun x hx => hb x (List.mem_cons_of_mem b hx))
    show bufferFromHex (((b :: tl).flatMap hexEncodeByte)) = b :: tl
    rw [List.flatMap_cons]
    show bufferFromHex
      (hexDigit (b / 16) :: hexDigit (b % 16) :: tl.flatMap hexEncodeByte) = b :: tl
    unfold bufferFromHex
    rw [hexVal_hexDigit _ hhi, hexVal_hexDigit _ hlo]
    show (b / 16 * 16 + b % 16) :: bufferFromHex (tl.flatMap hexEncodeByte) = b :: tl
    have : b / 16 * 16 + b % 16 = b := by omega
    rw [this]
    exact congrArg (b :: ·) htl

/-- Hex encoding is injective on byte lists. -/
theorem hexEncode_injOn (bs1 bs2 : List Nat)
    (hb1 : ∀ b ∈ bs1, b < 256) (hb2 : ∀ b ∈ bs2, b < 256)
    (h : hexEncode bs1 = hexEncode bs2) : bs1 = bs2 := by
  have := congrArg (fun s => bufferFromHex s.data) h
  simp only at this
  rwa [bufferFromHex_hexEncode bs1 hb1, bufferFromHex_hexEncode bs2 hb2] at this

/-- C7: case-handling asymmetry — the identity-provider key is built from
the lowercased wallet address, so two addresses equal up to case share
one provider key; the derived credential hashes the address verbatim, so
when the HMAC digests of the two differently-cased addresses differ, the
credentials differ as well. -/
theorem email_password_case_asymmetry (hmac : HmacFn) (secret k1 k2 : String)
    (hcase : jsToLower k1 = jsToLower k2)
    (hdig : hmac (utf8Bytes secret) (utf8Bytes k1)
      ≠ hmac (utf8Bytes secret) (utf8Bytes k2))
    (hb1 : ∀ b ∈ hmac (utf8Bytes secret) (utf8Bytes k1), b < 256)
    (hb2 : ∀ b ∈ hmac (utf8Bytes secret) (utf8Bytes k2), b < 256) :
    emailForWallet k1 = emailForWallet k2 ∧
    deterministicPassword hmac secret k1 ≠ deterministicPassword hmac secret k2 := by
  constructor
  · unfold emailForWallet
    rw [hcase]
  · intro hcontra
    exact hdig (hexEncode_injOn _ _ hb1 hb2 hcontra)

/-- C7 witness: `"Ga"` and `"gA"` share the provider key but, under an
HMAC that echoes its message, get distinct credentials. -/
theorem email_password_case_asymmetry_witness :
    emailForWallet "Ga" = emailForWallet "gA" ∧
    deterministicPassword hmacEcho "sec" "Ga"
      ≠ deterministicPassword hmacEcho "sec" "gA" :=
  email_password_case_asymmetry hmacEcho "sec" "Ga" "gA"
    (by decide) (by decide) (by decide) (by decide)

/-- A provider whose sign-in fails for a reason other than a missing
identity (logins disabled), while sign-up succeeds. -/
def providerOtherFailure : IdentityProvider :=
  { signInWithPassword := fun _ _ =>
      { signInError := some "Email logins are disabled", hasSession := false },
    signUp := fun _ _ => { signUpError := none } }

/-- A provider whose sign-in and sign-up both fail. -/
def providerFailBoth : IdentityProvider :=
  { signInWithPassword := fun _ _ =>
      { signInError := some "Email logins are disabled", hasSession := false },
    signUp := fun _ _ => { signUpError := some "Signups not allowed for this instance" } }

/-- C8 counterexample: when sign-in fails for a reason other than a
missing identity ("Email logins are disabled"), the handler still
attempts creation and returns the 201 created response — it does not
reject with an authentication error, contradicting the claim that
creation is attempted exactly on a missing-identity failure. -/
theorem signin_fallback_counterexample :
    (walletLoginPOST sdkAccept hmacZero (some "sec") providerOtherFailure storeW 2000
      (.str addrW) (.str "ab")).1 = .createdSignUp addrW ∧
    (walletLoginPOST sdkAccept hmacZero (some "sec") providerOtherFailure storeW 2000
      (.str addrW) (.str "ab")).1
      ≠ .unauthorized "Authentication failed. Please try again." := by
  decide

/-- C8 (amended): after successful signature verification the orchestrator
attempts sign-in and falls back to creating a new identity whenever
sign-in yields an error or no session — regardless of the failure
reason; it rejects with an authentication error exactly when that
creation attempt itself fails. -/
theorem signin_fallback_on_any_failure (sdk : StellarSdkModel) (hmac : HmacFn)
    (secret : String) (provider : IdentityProvider)
    (store : NonceStore) (now : Int) (k sig : String) (entry : NonceEntry)
    (hval : validateWalletAddressWithMessage (.str k) = none)
    (hsig : signatureFieldMissing (.str sig) = false)
    (hstore : store k = some entry)
    (hlive : ¬ now > entry.expiresAt)
    (hnonempty : entry.nonce ≠ "")
    (hverify : verifyWalletSignature sdk k entry.nonce sig = true)
    (hsecret : secret ≠ "")
    (hsifail : ¬((provider.signInWithPassword (emailForWallet k)
          (deterministicPassword hmac secret k)).signInError = none ∧
        (provider.signInWithPassword (emailForWallet k)
          (deterministicPassword hmac secret k)).hasSession = true)) :
    ((provider.signUp (emailForWallet k)
        (deterministicPassword hmac secret k)).signUpError ≠ none →
      walletLoginPOST sdk hmac (some secret) provider store now (.str k) (.str sig)
        = (.unauthorized "Authentication failed. Please try again.",
           fun x => if x = k then none else store x)) ∧
    ((provider.signUp (emailForWallet k)
        (deterministicPassword hmac secret k)).signUpError = none →
      walletLoginPOST sdk hmac (some secret) provider store now (.str k) (.str sig)
        = (.createdSignUp k, fun x => if x = k then none else store x)) := by
  have hcons : consumeNonce store now k
      = (some entry.nonce, fun x => if x = k then none else store x) := by
    unfold consumeNonce
    rw [hstore]
    simp [hlive]
  have hcond : ((provider.signInWithPassword (emailForWallet k)
        (deterministicPassword hmac secret k)).signInError = none &&
      (provider.signInWithPassword (emailForWallet k)
        (deterministicPassword hmac secret k)).hasSession) = false := by
    rcases hE : (provider.signInWithPassword (emailForWallet k)
        (deterministicPassword hmac secret k)).signInError with _ | e
    · rcases hS : (provider.signInWithPassword (emailForWallet k)
          (deterministicPassword hmac secret k)).hasSession
      · simp
      · exact absurd ⟨hE, hS⟩ hsifail
    · simp
  constructor <;> intro hsu
  · rcases hsuE : (provider.signUp (emailForWallet k)
        (deterministicPassword hmac secret k)).signUpError with _ | e
    · exact absurd hsuE hsu
    · unfold walletLoginPOST walletLoginBody
      rw [hval, hsig]
      simp [hcons, nonceFalsy, hnonempty, hverify, deterministicPasswordRun, hsecret,
        hcond, hsuE, pure, Except.pure, Bind.bind, Except.bind]
  · unfold walletLoginPOST walletLoginBody
    rw [hval, hsig]
    simp [hcons, nonceFalsy, hnonempty, hverify, deterministicPasswordRun, hsecret,
      hcond, hsu, pure, Except.pure, Bind.bind, Except.bind]

/-- C8 (amended) witness: with sign-in failing for an unrelated reason,
a succeeding sign-up yields 201, and a failing sign-up yields the 401
authentication error. -/
theorem signin_fallback_on_any_failure_witness :
    walletLoginPOST sdkAccept hmacZero (some "sec") providerOtherFailure storeW 2000
      (.str addrW) (.str "ab")
      = (.createdSignUp addrW, fun x => if x = addrW then none else storeW x) ∧
    walletLoginPOST sdkAccept hmacZero (some "sec") providerFailBoth storeW 2000
      (.str addrW) (.str "ab")
      = (.unauthorized "Authentication failed. Please try again.",
         fun x => if x = addrW then none else storeW x) := by
  constructor
  · exact (signin_fallback_on_any_failure sdkAccept hmacZero "sec" providerOtherFailure
      storeW 2000 addrW "ab" { nonce := vW, expiresAt := 301000 } (by decide) (by decide)
      (by decide) (by decide) (by decide) (by decide) (by decide) (by decide)).2 rfl
  · exact (signin_fallback_on_any_failure sdkAccept hmacZero "sec" providerFailBoth
      storeW 2000 addrW "ab" { nonce := vW, expiresAt := 301000 } (by decide) (by decide)
      (by decide) (by decide) (by decide) (by decide) (by decide) (by decide)).1
      (by decide)

/-- Hex encoding doubles the length. -/
theorem hexEncode_length (bs : List Nat) : (hexEncode bs).length = 2 * bs.length := by
  induction bs with
  | nil => rfl
  | cons b tl ih =>
    show (hexEncodeByte b ++ tl.flatMap hexEncodeByte).length = 2 * (b :: tl).length
    rw [List.length_append]
    have : (tl.flatMap hexEncodeByte).length = 2 * tl.length := ih
    rw [this]
    simp [hexEncodeByte]
    omega

/-- Every character hex encoding produces is a lowercase hex character. -/
theorem hexEncode_chars (bs : List Nat) (hb : ∀ b ∈ bs, b < 256) :
    ∀ c ∈ (hexEncode bs).data,
      (48 ≤ c.toNat ∧ c.toNat ≤ 57) ∨ (97 ≤ c.toNat ∧ c.toNat ≤ 102) := by
  intro c hc
  have hc2 : c ∈ bs.flatMap hexEncodeByte := hc
  rw [List.mem_flatMap] at hc2
  obtain ⟨b, hbmem, hcb⟩ := hc2
  have hblt : b < 256 := hb b hbmem
  have hhi : b / 16 < 16 := Nat.div_lt_of_lt_mul (by omega)
  have hlo : b % 16 < 16 := Nat.mod_lt _ (by omega)
  simp only [hexEncodeByte, List.mem_cons, List.mem_singleton,
    List.not_mem_nil, or_false] at hcb
  rcases hcb with h | h
  · exact h ▸ hexDigit_range _ hhi
  · exact h ▸ hexDigit_range _ hlo

/-- C9: credential determinism and shape — `deterministicPassword` is a
pure function (identical inputs give identical output), and whenever the
HMAC digest is 32 bytes its hex encoding is exactly 64 characters, each
a lowercase hexadecimal digit. -/
theorem deterministicPassword_shape (hmac : HmacFn) (secret k : String)
    (hlen : (hmac (utf8Bytes secret) (utf8Bytes k)).length = 32)
    (hb : ∀ b ∈ hmac (utf8Bytes secret) (utf8Bytes k), b < 256) :
    deterministicPassword hmac secret k = deterministicPassword hmac secret k ∧
    (deterministicPassword hmac secret k).length = 64 ∧
    (∀ c ∈ (deterministicPassword hmac secret k).data,
      (48 ≤ c.toNat ∧ c.toNat ≤ 57) ∨ (97 ≤ c.toNat ∧ c.toNat ≤ 102)) := by
  refine ⟨rfl, ?_, ?_⟩
  · unfold deterministicPassword
    rw [hexEncode_length, hlen]
  · unfold deterministicPassword
    exact hexEncode_chars _ hb

/-- C9 witness: with a fixed 32-byte digest the password is the 64-zero
string, of length 64 and all lowercase hex. -/
theorem deterministicPassword_shape_witness :
    deterministicPassword hmacZero "sec" addrW = deterministicPassword hmacZero "sec" addrW ∧
    (deterministicPassword hmacZero "sec" addrW).length = 64 ∧
    (∀ c ∈ (deterministicPassword hmacZero "sec" addrW).data,
      (48 ≤ c.toNat ∧ c.toNat ≤ 57) ∨ (97 ≤ c.toNat ∧ c.toNat ≤ 102)) :=
  deterministicPassword_shape hmacZero "sec" addrW (by decide) (by decide)

/-- C10: every value `generateNonce` stores and returns has the shape
`anonchat:<timestamp>:<uuid>` and is non-empty; the store invariant "all
stored nonces are non-empty" is preserved, under it `consumeNonce` never
returns a non-null falsy value, and the orchestrator's truthiness test
takes the "Nonce not found or expired" branch exactly when `consumeNonce`
returned `null`. -/
theorem generated_nonce_shape_truthiness (store : NonceStore) (now : Int)
    (uuid k : String)
    (hwf : ∀ key e, store key = some e → e.nonce ≠ "") :
    ((generateNonce store now uuid k).1 = "anonchat:" ++ toString now ++ ":" ++ uuid ∧
     (generateNonce store now uuid k).1 ≠ "") ∧
    (∀ key e, (generateNonce store now uuid k).2 key = some e → e.nonce ≠ "") ∧
    (∀ t key, nonceFalsy (consumeNonce store t key).1 = true
        ↔ (consumeNonce store t key).1 = none) ∧
    (∀ t sdk hmac envSecret provider sig,
      validateWalletAddressWithMessage (.str k) = none →
      signatureFieldMissing (.str sig) = false →
      ((walletLoginPOST sdk hmac envSecret provider store t (.str k) (.str sig)).1
          = .unauthorized "Nonce not found or expired. Request a new nonce."
        ↔ (consumeNonce store t k).1 = none)) := by
  have hne : ("anonchat:" ++ toString now ++ ":" ++ uuid : String) ≠ "" := by
    intro h
    have := congrArg String.data h
    simp [String.data_append] at this
  refine ⟨⟨rfl, hne⟩, ?_, ?_, ?_⟩
  · intro key e hkey
    unfold generateNonce at hkey
    simp only at hkey
    by_cases hk : key = k
    · rw [if_pos hk] at hkey
      cases Option.some.inj hkey
      exact hne
    · rw [if_neg hk] at hkey
      exact hwf key e hkey
  · intro t key
    unfold consumeNonce
    cases hk : store key with
    | none => simp [nonceFalsy]
    | some e =>
      have hn := hwf key e hk
      by_cases hexp : t > e.expiresAt
      · simp [hexp, nonceFalsy]
      · simp [hexp, nonceFalsy, hn]
  · intro t sdk hmac envSecret provider sig hval hsig
    unfold walletLoginPOST walletLoginBody
    rw [hval, hsig]
    cases hk : store k with
    | none =>
      have hc : consumeNonce store t k = (none, store) := consumeNonce_absent store k hk t
      simp [hc, nonceFalsy, pure, Except.pure, Bind.bind, Except.bind]
    | some e =>
      have hn := hwf k e hk
      by_cases hexp : t > e.expiresAt
      · have hc : consumeNonce store t k
            = (none, fun x => if x = k then none else store x) := by
          unfold consumeNonce
          rw [hk]
          simp [hexp]
        simp [hc, nonceFalsy, pure, Except.pure, Bind.bind, Except.bind]
      · have hc : consumeNonce store t k
            = (some e.nonce, fun x => if x = k then none else store x) := by
          unfold consumeNonce
          rw [hk]
          simp [hexp]
        cases hver : verifyWalletSignature sdk k e.nonce sig with
        | false =>
          simp [hc, nonceFalsy, hn, hver, pure, Except.pure, Bind.bind, Except.bind]
        | true =>
          cases hpw : deterministicPasswordRun hmac envSecret k with
          | error e2 =>
            simp [hc, nonceFalsy, hn, hver, hpw, pure, Except.pure, Bind.bind, Except.bind]
          | ok p =>
            cases hS : (decide ((provider.signInWithPassword (emailForWallet k) p).signInError
                  = none)
                && (provider.signInWithPassword (emailForWallet k) p).hasSession) with
            | true =>
              simp [hc, nonceFalsy, hn, hver, hpw, hS, pure, Except.pure, Bind.bind,
                Except.bind]
            | false =>
              cases hsu : (provider.signUp (emailForWallet k) p).signUpError with
              | none =>
                simp [hc, nonceFalsy, hn, hver, hpw, hS, hsu, pure, Except.pure,
                  Bind.bind, Except.bind]
              | some e3 =>
                simp [hc, nonceFalsy, hn, hver, hpw, hS, hsu, pure, Except.pure,
                  Bind.bind, Except.bind]

/-- C10 witness: the theorem instantiated on the empty store, a concrete
wallet and time, and a concrete SDK and provider. -/
theorem generated_nonce_shape_truthiness_witness :
    ((generateNonce emptyStore 1000 "u1" addrW).1
        = "anonchat:" ++ toString (1000 : Int) ++ ":" ++ "u1" ∧
     (generateNonce emptyStore 1000 "u1" addrW).1 ≠ "") ∧
    (nonceFalsy (consumeNonce emptyStore 2000 addrW).1 = true
        ↔ (consumeNonce emptyStore 2000 addrW).1 = none) ∧
    ((walletLoginPOST sdkAccept hmacZero (some "sec") providerSignInOk emptyStore 2000
        (.str addrW) (.str "ab")).1
        = .unauthorized "Nonce not found or expired. Request a new nonce."
      ↔ (consumeNonce emptyStore 2000 addrW).1 = none) := by
  have h := generated_nonce_shape_truthiness emptyStore 1000 "u1" addrW
    (by intro key e hkey; simp [emptyStore] at hkey)
  exact ⟨h.1, h.2.2.1 2000 addrW,
    h.2.2.2 2000 sdkAccept hmacZero (some "sec") providerSignInOk "ab"
      (by decide) (by decide)⟩

end AnonChat
